import Mathlib

/-!
Shallow embedding of the rolesanywhere credential-helper core
(`aws_signing_helper`): the `GenerateCredentials` orchestration, the
`CreateSessionInput.Validate` check, and the error-code dispatch table
`exceptionFromCode`, together with theorems settling the specified
properties.  External collaborators (key/certificate loading, base64 and
X.509 decoding, the HTTP round trip) are modelled as oracle fields of an
`Env` structure; the observable collaborator/network activity of a run is
recorded as an explicit trace of `CallEvent`s.
-/

namespace AwsSigningHelper

/-- Modelled from the spec: structured ARNs `{partition, service, region,
accountId, resource}` as produced by the external `arn.Parse` collaborator
(the aws-sdk ARN parser, which is not part of this repository's sources;
spec section 3 gives the parsed shape). -/
structure ARN where
  Partition : String
  Service : String
  Region : String
  AccountID : String
  Resource : String
deriving DecidableEq, Repr

/-- Opaque stand-in for a loaded private signing key handle. -/
structure PrivateKey where
  keyId : Nat
deriving DecidableEq, Repr

/-- Opaque stand-in for a parsed X.509 certificate. -/
structure X509Cert where
  der : List Nat
deriving DecidableEq, Repr

/-- Result of the certificate-loading collaborator: carries the base64
certificate data consumed by `GenerateCredentials` as
`certificateData.CertificateData`. -/
structure CertificateData where
  CertificateData : String
deriving DecidableEq, Repr

/-- `protocol.ResponseMetadata`: HTTP status code and service request id
attached to a decoded error response. -/
structure ResponseMetadata where
  StatusCode : Int
  RequestID : String
deriving DecidableEq, Repr

/-- The three typed service exceptions declared in the source
(`AccessDeniedException`, `ResourceNotFoundException`,
`ValidationException`), each holding its `RespMetadata` and optional
message exactly as the Go structs do. -/
inductive ServiceError where
  | accessDeniedException (RespMetadata : ResponseMetadata) (Message_ : Option String)
  | resourceNotFoundException (RespMetadata : ResponseMetadata) (Message_ : Option String)
  | validationException (RespMetadata : ResponseMetadata) (Message_ : Option String)
deriving DecidableEq, Repr

/-- `Code()` of each typed exception, as returned by the source methods. -/
def ServiceError.Code : ServiceError → String
  | .accessDeniedException _ _ => "AccessDeniedException"
  | .resourceNotFoundException _ _ => "ResourceNotFoundException"
  | .validationException _ _ => "ValidationException"

/-- `StatusCode()` of each typed exception: `s.RespMetadata.StatusCode`. -/
def ServiceError.StatusCode : ServiceError → Int
  | .accessDeniedException m _ => m.StatusCode
  | .resourceNotFoundException m _ => m.StatusCode
  | .validationException m _ => m.StatusCode

/-- `RequestID()` of each typed exception: `s.RespMetadata.RequestID`. -/
def ServiceError.RequestID : ServiceError → String
  | .accessDeniedException m _ => m.RequestID
  | .resourceNotFoundException m _ => m.RequestID
  | .validationException m _ => m.RequestID

/-- A single invalid-parameter record, mirroring the aws-sdk
`request.ErrParamMinValue` / `ErrParamRequired` / `ErrParamMinLen`
values added by `CreateSessionInput.Validate`. -/
inductive ParamErr where
  | minValue (field : String) (min : Int)
  | required (field : String)
  | minLen (field : String) (min : Nat)
deriving DecidableEq, Repr

/-- `request.ErrInvalidParams`: a context plus the accumulated parameter
errors. -/
structure ErrInvalidParams where
  Context : String
  errs : List ParamErr
deriving DecidableEq, Repr

/-- The Go `error` values that can flow through `GenerateCredentials`:
ARN-parse failures, collaborator failures (each carrying an opaque
message), decoded service errors, and `errors.New` messages created by
`GenerateCredentials` itself. -/
inductive Err where
  | arnInvalidStart
  | arnInvalidSections
  | keyLoad (msg : String)
  | certLoad (msg : String)
  | base64Decode (msg : String)
  | x509Parse (msg : String)
  | bundleLoad (msg : String)
  | service (e : ServiceError)
  | sendFailure (msg : String)
  | newError (msg : String)
deriving DecidableEq, Repr

/-- Split a character list at every colon (the list analogue of
splitting a string on `":"`); the empty list splits into one empty
group. -/
def splitColon : List Char → List (List Char)
  | [] => [[]]
  | c :: cs =>
    if c = ':' then
      [] :: splitColon cs
    else
      match splitColon cs with
      | [] => [[c]]
      | g :: gs => (c :: g) :: gs

/-- Rejoin colon-separated groups (the inverse direction used for the
sixth, remainder-holding ARN section). -/
def joinColon (gs : List (List Char)) : List Char :=
  match gs with
  | [] => []
  | [g] => g
  | g :: gs => g ++ ':' :: joinColon gs

/-- Modelled from the spec: the external `arn.Parse` collaborator
(aws-sdk, not part of this repository's sources).  An ARN string must
start with `arn:` and split on `:` into six sections (the sixth holding
the remainder); otherwise parsing fails.  Spec section 3 requires both
identifiers to "parse successfully" into the structured shape. -/
def arnParse (s : String) : Except Err ARN :=
  let startsWithArn : Bool :=
    match s.data with
    | 'a' :: 'r' :: 'n' :: ':' :: _ => true
    | _ => false
  if startsWithArn then
    let parts := splitColon s.data
    let sections :=
      if parts.length ≤ 6 then parts
      else parts.take 5 ++ [joinColon (parts.drop 5)]
    if sections.length = 6 then
      .ok { Partition := String.mk (sections.getD 1 [])
            Service := String.mk (sections.getD 2 [])
            Region := String.mk (sections.getD 3 [])
            AccountID := String.mk (sections.getD 4 [])
            Resource := String.mk (sections.getD 5 []) }
    else
      .error .arnInvalidSections
  else
    .error .arnInvalidStart

/-- `CredentialsOpts` from the source: caller options for one exchange. -/
structure CredentialsOpts where
  PrivateKeyId : String
  CertificateId : String
  CertificateBundleId : String
  RoleArn : String
  ProfileArnStr : String
  TrustAnchorArnStr : String
  SessionDuration : Int
  Region : String
  Endpoint : String
  NoVerifySSL : Bool
  WithProxy : Bool
  Debug : Bool
  Version : String
deriving DecidableEq, Repr

/-- `CreateSessionInput` from the source; pointer fields become `Option`,
the `map[string]*string` becomes an optional association list. -/
structure CreateSessionInput where
  Cert : Option String
  DurationSeconds : Option Int
  InstanceProperties : Option (List (String × Option String))
  ProfileArn : Option String
  RoleArn : Option String
  SessionName : Option String
  TrustAnchorArn : Option String
deriving DecidableEq, Repr

/-- `Credentials` from the source (all fields are `*string`). -/
structure Credentials where
  AccessKeyId : Option String
  Expiration : Option String
  SecretAccessKey : Option String
  SessionToken : Option String
deriving DecidableEq, Repr

/-- `AssumedRoleUser` from the source. -/
structure AssumedRoleUser where
  Arn : Option String
  AssumedRoleId : Option String
deriving DecidableEq, Repr

/-- `CredentialResponse` from the source: one entry of the credential
set, with pointer-valued sub-structures. -/
structure CredentialResponse where
  AssumedRoleUser : Option AssumedRoleUser
  Credentials : Option Credentials
  PackedPolicySize : Option Int
  RoleArn : Option String
  SourceIdentity : Option String
deriving DecidableEq, Repr

/-- `CreateSessionOutput` from the source; `CredentialSet` is a list of
possibly-nil pointers to `CredentialResponse`. -/
structure CreateSessionOutput where
  CredentialSet : List (Option CredentialResponse)
  EnrollmentArn : Option String
  SubjectArn : Option String
deriving DecidableEq, Repr

/-- Modelled from the spec: `CredentialProcessOutput` is declared in a
repository file outside the provided sources; spec section 3 fixes its
shape as `{version, accessKeyId, secretAccessKey, sessionToken,
expiration}` with plain (non-optional) fields, matching its use in
`GenerateCredentials`. -/
structure CredentialProcessOutput where
  Version : Int
  AccessKeyId : String
  SecretAccessKey : String
  SessionToken : String
  Expiration : String
deriving DecidableEq, Repr

/-- The Go zero value `CredentialProcessOutput{}` returned on the error
paths of `GenerateCredentials`. -/
def CredentialProcessOutput.zero : CredentialProcessOutput :=
  { Version := 0, AccessKeyId := "", SecretAccessKey := "",
    SessionToken := "", Expiration := "" }

/-- `CreateSessionInput.Validate` from the source: accumulates an
invalid-parameter error for `DurationSeconds < 900`, missing
`ProfileArn`, missing `RoleArn`, and `SessionName` shorter than two
bytes, and returns them when any exist (`none` models the nil error). -/
def CreateSessionInput.Validate (s : CreateSessionInput) : Option ErrInvalidParams :=
  let invalidParams : List ParamErr :=
    (match s.DurationSeconds with
      | some d => if d < 900 then [.minValue "DurationSeconds" 900] else []
      | none => []) ++
    (if s.ProfileArn = none then [.required "ProfileArn"] else []) ++
    (if s.RoleArn = none then [.required "RoleArn"] else []) ++
    (match s.SessionName with
      | some n => if n.utf8ByteSize < 2 then [.minLen "SessionName" 2] else []
      | none => [])
  if invalidParams.length > 0 then
    some { Context := "CreateSessionInput", errs := invalidParams }
  else
    none

/-- Observable collaborator and client activity of one
`GenerateCredentials` run, in call order: identity-loading collaborator
calls, client construction (recording the configured region), and the
network call to `CreateSession` (recording the request sent). -/
inductive CallEvent where
  | readPrivateKey (id : String)
  | readCertificate (id : String)
  | readCertificateBundle (id : String)
  | newClient (region : String)
  | createSession (input : CreateSessionInput)
deriving DecidableEq, Repr

/-- Oracles for the external collaborators consumed by
`GenerateCredentials`: key/certificate/bundle loading, the standard
base64 and X.509 decoders, and the HTTP `CreateSession` round trip. -/
structure Env where
  ReadPrivateKeyData : String → Except Err PrivateKey
  ReadCertificateData : String → Except Err CertificateData
  ReadCertificateBundleData : String → Except Err (List X509Cert)
  base64DecodeString : String → Except Err (List Nat)
  parseCertificate : List Nat → Except Err X509Cert
  CreateSession : CreateSessionInput → Except Err CreateSessionOutput

/-- One run's outcome paired with its trace: the Go return pair
`(CredentialProcessOutput, error)` (with `none` modelling a nil error)
and the list of collaborator/client events that occurred. -/
abbrev GenResult := (CredentialProcessOutput × Option Err) × List CallEvent

/-- The `CreateSessionInput` literal built by `GenerateCredentials`
(source lines 117-126): fixed duration 3600, nil `InstanceProperties`
and nil `SessionName`, ARNs and role taken from the options, certificate
data from the loaded certificate. -/
def buildCreateSessionRequest (opts : CredentialsOpts) (certB64 : String) :
    CreateSessionInput :=
  { Cert := some certB64
    ProfileArn := some opts.ProfileArnStr
    TrustAnchorArn := some opts.TrustAnchorArnStr
    DurationSeconds := some 3600
    InstanceProperties := none
    RoleArn := some opts.RoleArn
    SessionName := none }

/-- The response handling of `GenerateCredentials` (source lines
127-145): a send error propagates with the zero output; an empty
credential set becomes the `errors.New` failure; otherwise the first
entry's credentials are dereferenced (a nil pointer anywhere is a Go
panic, modelled as `none`) and projected into the version-1 output. -/
def mapCreateSessionResponse (res : Except Err CreateSessionOutput)
    (t : List CallEvent) : Option GenResult :=
  match res with
  | .error err => some ((.zero, some err), t)
  | .ok output =>
    match output.CredentialSet with
    | [] =>
      some ((.zero,
        some (.newError
          "unable to obtain temporary security credentials from CreateSession")), t)
    | entry0 :: _ =>
      match entry0 with
      | none => none
      | some entry =>
        match entry.Credentials with
        | none => none
        | some credentials =>
          match credentials.AccessKeyId, credentials.SecretAccessKey,
                credentials.SessionToken, credentials.Expiration with
          | some accessKeyId, some secretAccessKey, some sessionToken, some expiration =>
            some (({ Version := 1
                     AccessKeyId := accessKeyId
                     SecretAccessKey := secretAccessKey
                     SessionToken := sessionToken
                     Expiration := expiration }, none), t)
          | _, _, _, _ => none

/-- The straight-line finish of `GenerateCredentials` after the optional
certificate-bundle load (source lines 86-145): construct the client with
the resolved region, build the fixed `CreateSessionInput`, send it, and
map the response. -/
def finishCreateSession (env : Env) (opts : CredentialsOpts) (certB64 : String)
    (t : List CallEvent) : Option GenResult :=
  let t := t ++ [CallEvent.newClient opts.Region]
  let createSessionRequest := buildCreateSessionRequest opts certB64
  let t := t ++ [CallEvent.createSession createSessionRequest]
  mapCreateSessionResponse (env.CreateSession createSessionRequest) t

/-- `GenerateCredentials` from the source, translated step by step; the
outer `Option` is `none` exactly when the Go code would dereference a
nil pointer (a runtime panic).  The region-mismatch branch returns the
`err` variable, which is nil at that point since both parses succeeded —
this is reproduced faithfully as `(zero, none)`. -/
def GenerateCredentials (env : Env) (opts : CredentialsOpts) : Option GenResult :=
  match arnParse opts.TrustAnchorArnStr with
  | .error err => some ((.zero, some err), [])
  | .ok trustAnchorArn =>
  match arnParse opts.ProfileArnStr with
  | .error err => some ((.zero, some err), [])
  | .ok profileArn =>
  if trustAnchorArn.Region ≠ profileArn.Region then
    some ((.zero, none), [])
  else
  let opts :=
    if opts.Region = "" then { opts with Region := trustAnchorArn.Region } else opts
  match env.ReadPrivateKeyData opts.PrivateKeyId with
  | .error err => some ((.zero, some err), [.readPrivateKey opts.PrivateKeyId])
  | .ok _privateKey =>
  match env.ReadCertificateData opts.CertificateId with
  | .error err =>
    some ((.zero, some err),
      [.readPrivateKey opts.PrivateKeyId, .readCertificate opts.CertificateId])
  | .ok certificateData =>
  let t := [CallEvent.readPrivateKey opts.PrivateKeyId,
            CallEvent.readCertificate opts.CertificateId]
  match env.base64DecodeString certificateData.CertificateData with
  | .error err => some ((.zero, some err), t)
  | .ok certificateDerData =>
  match env.parseCertificate certificateDerData with
  | .error err => some ((.zero, some err), t)
  | .ok _certificate =>
  if opts.CertificateBundleId ≠ "" then
    match env.ReadCertificateBundleData opts.CertificateBundleId with
    | .error err =>
      some ((.zero, some err), t ++ [.readCertificateBundle opts.CertificateBundleId])
    | .ok _certificateChain =>
      finishCreateSession env opts certificateData.CertificateData
        (t ++ [CallEvent.readCertificateBundle opts.CertificateBundleId])
  else
    finishCreateSession env opts certificateData.CertificateData t

/-- `exceptionFromCode` from `service.go`: the closed map from error-code
strings to typed-error constructors (each applying the response metadata
with a nil message, as `newErrorAccessDeniedException` and friends do). -/
def exceptionFromCode (code : String) : Option (ResponseMetadata → ServiceError) :=
  if code = "AccessDeniedException" then
    some (fun m => .accessDeniedException m none)
  else if code = "ResourceNotFoundException" then
    some (fun m => .resourceNotFoundException m none)
  else if code = "ValidationException" then
    some (fun m => .validationException m none)
  else
    none

/-- A decoded error response: either one of the typed exceptions from the
closed mapping, or the generic request failure for an unrecognized code,
still carrying the code and the response metadata. -/
inductive UnmarshalledError where
  | typed (e : ServiceError)
  | generic (code : String) (m : ResponseMetadata)
deriving DecidableEq, Repr

/-- Modelled from the spec: the error-response dispatcher
(`restjson.NewUnmarshalTypedError(exceptionFromCode)` installed in
`newClient`; the dispatcher itself is aws-sdk scaffolding outside this
repository's sources).  Spec section 4.4: dispatch the decoded code
through the closed mapping to a typed error; "an unrecognized code maps
to a generic `RemoteError` that still preserves status and request id". -/
def unmarshalTypedError (code : String) (m : ResponseMetadata) : UnmarshalledError :=
  match exceptionFromCode code with
  | some mk => .typed (mk m)
  | none => .generic code m

/-- HTTP status carried by a decoded error response. -/
def UnmarshalledError.StatusCode : UnmarshalledError → Int
  | .typed e => e.StatusCode
  | .generic _ m => m.StatusCode

/-- Request id carried by a decoded error response. -/
def UnmarshalledError.RequestID : UnmarshalledError → String
  | .typed e => e.RequestID
  | .generic _ m => m.RequestID

/-! Concrete fixtures used to instantiate the theorems below. -/

/-- An environment whose collaborators all succeed and whose
`CreateSession` returns one credential-set entry with the example
credential values from the specification's test table. -/
def envOk : Env where
  ReadPrivateKeyData := fun _ => .ok ⟨1⟩
  ReadCertificateData := fun _ => .ok ⟨"CERTB64"⟩
  ReadCertificateBundleData := fun _ => .ok []
  base64DecodeString := fun _ => .ok [1, 2]
  parseCertificate := fun _ => .ok ⟨[1, 2]⟩
  CreateSession := fun _ => .ok
    { CredentialSet := [some
        { AssumedRoleUser := none
          Credentials := some
            { AccessKeyId := some "AKIDEXAMPLE"
              Expiration := some "2024-01-01T00:00:00Z"
              SecretAccessKey := some "secret"
              SessionToken := some "tok" }
          PackedPolicySize := none
          RoleArn := none
          SourceIdentity := none }]
      EnrollmentArn := none
      SubjectArn := none }

/-- Caller options with well-formed trust-anchor and profile ARNs in the
same region and no explicit region override. -/
def optsGood : CredentialsOpts where
  PrivateKeyId := "key"
  CertificateId := "cert"
  CertificateBundleId := ""
  RoleArn := "arn:aws:iam::123456789012:role/r"
  ProfileArnStr := "arn:aws:rolesanywhere:us-east-1:123456789012:profile/p"
  TrustAnchorArnStr := "arn:aws:rolesanywhere:us-east-1:123456789012:trust-anchor/t"
  SessionDuration := 900
  Region := ""
  Endpoint := ""
  NoVerifySSL := false
  WithProxy := false
  Debug := false
  Version := "1"

/-- The request `GenerateCredentials` sends for `optsGood` under any
all-succeeding environment. -/
def reqGood : CreateSessionInput :=
  { Cert := some "CERTB64"
    ProfileArn := some "arn:aws:rolesanywhere:us-east-1:123456789012:profile/p"
    TrustAnchorArn := some "arn:aws:rolesanywhere:us-east-1:123456789012:trust-anchor/t"
    DurationSeconds := some 3600
    InstanceProperties := none
    RoleArn := some "arn:aws:iam::123456789012:role/r"
    SessionName := none }

/-- The full result of running `GenerateCredentials envOk optsGood`:
the projected version-1 output, a nil error, and the collaborator
trace. -/
def resGood : GenResult :=
  (({ Version := 1, AccessKeyId := "AKIDEXAMPLE", SecretAccessKey := "secret",
      SessionToken := "tok", Expiration := "2024-01-01T00:00:00Z" }, none),
   [.readPrivateKey "key", .readCertificate "cert", .newClient "us-east-1",
    .createSession reqGood])

/-- Like `envOk` but `CreateSession` answers success with an empty
credential set. -/
def envEmpty : Env :=
  { envOk with
    CreateSession := fun _ =>
      .ok { CredentialSet := [], EnrollmentArn := none, SubjectArn := none } }

/-! Helper lemmas shared by the claim theorems below. -/

/-- ARN parsing can only fail with one of the two malformed-ARN
errors. -/
lemma arnParse_error_cases (s : String) (e : Err) (h : arnParse s = .error e) :
    e = .arnInvalidStart ∨ e = .arnInvalidSections := by
  simp only [arnParse] at h
  repeat' split at h
  all_goals simp_all

/-- The response mapper always returns the trace it was given. -/
lemma mapCreateSessionResponse_trace (res : Except Err CreateSessionOutput)
    (t : List CallEvent) (r : GenResult)
    (h : mapCreateSessionResponse res t = some r) : r.2 = t := by
  unfold mapCreateSessionResponse at h
  repeat' split at h
  all_goals (try (exact Option.noConfusion h))
  all_goals (injection h with h)
  all_goals (subst h)
  all_goals rfl

/-- The finishing step appends exactly the client-construction and
network events to the trace. -/
lemma finishCreateSession_trace (env : Env) (opts : CredentialsOpts)
    (certB64 : String) (t : List CallEvent) (res : GenResult)
    (h : finishCreateSession env opts certB64 t = some res) :
    res.2 = t ++ [CallEvent.newClient opts.Region,
      CallEvent.createSession (buildCreateSessionRequest opts certB64)] := by
  unfold finishCreateSession at h
  have := mapCreateSessionResponse_trace _ _ _ h
  simpa using this

/-- The finishing step only depends on the region, the two ARN strings
and the role of the options. -/
lemma finishCreateSession_congr (env : Env) (o1 o2 : CredentialsOpts)
    (c : String) (t : List CallEvent)
    (hR : o1.Region = o2.Region) (hP : o1.ProfileArnStr = o2.ProfileArnStr)
    (hT : o1.TrustAnchorArnStr = o2.TrustAnchorArnStr)
    (hRo : o1.RoleArn = o2.RoleArn) :
    finishCreateSession env o1 c t = finishCreateSession env o2 c t := by
  unfold finishCreateSession buildCreateSessionRequest
  rw [hR, hP, hT, hRo]

/-- When both ARNs parse with equal regions and every identity
collaborator succeeds, `GenerateCredentials` reduces to mapping the
`CreateSession` response for the fixed request. -/
lemma generateCredentials_spine
    (env : Env) (opts : CredentialsOpts) (ta pa : ARN) (pk : PrivateKey)
    (cd : CertificateData) (der : List Nat) (cert : X509Cert)
    (h1 : arnParse opts.TrustAnchorArnStr = .ok ta)
    (h2 : arnParse opts.ProfileArnStr = .ok pa)
    (h3 : ta.Region = pa.Region)
    (h4 : env.ReadPrivateKeyData opts.PrivateKeyId = .ok pk)
    (h5 : env.ReadCertificateData opts.CertificateId = .ok cd)
    (h6 : env.base64DecodeString cd.CertificateData = .ok der)
    (h7 : env.parseCertificate der = .ok cert)
    (hb : opts.CertificateBundleId = "" ∨
      ∃ chain, env.ReadCertificateBundleData opts.CertificateBundleId = .ok chain) :
    ∃ t, GenerateCredentials env opts =
      mapCreateSessionResponse
        (env.CreateSession (buildCreateSessionRequest opts cd.CertificateData)) t := by
  by_cases hbe : opts.CertificateBundleId = ""
  · by_cases hr : opts.Region = "" <;>
      simp [GenerateCredentials, finishCreateSession, h1, h2, h3, hr, hbe,
        h4, h5, h6, h7] <;>
      exact ⟨_, rfl⟩
  · rcases hb with hb | ⟨chain, hc⟩
    · exact absurd hb hbe
    · by_cases hr : opts.Region = "" <;>
        simp [GenerateCredentials, finishCreateSession, h1, h2, h3, hr, hbe, hc,
          h4, h5, h6, h7] <;>
        exact ⟨_, rfl⟩

/-- Every client-construction event in a run's trace carries the region
resolved from the options or the trust-anchor ARN, and every network
event carries the fixed request built from the options. -/
lemma trace_shape (env : Env) (opts : CredentialsOpts) (res : GenResult)
    (h : GenerateCredentials env opts = some res) :
    ∀ ev ∈ res.2,
      (∀ r, ev = CallEvent.newClient r →
        ∃ ta, arnParse opts.TrustAnchorArnStr = .ok ta ∧
          r = (if opts.Region = "" then ta.Region else opts.Region)) ∧
      (∀ inp, ev = CallEvent.createSession inp →
        ∃ certB64, inp = buildCreateSessionRequest opts certB64) := by
  intro ev hev
  simp only [GenerateCredentials] at h
  by_cases hbe : opts.CertificateBundleId = "" <;>
    by_cases hr : opts.Region = "" <;>
    simp only [hbe, hr, if_true, if_false, ite_true, ite_false, ne_eq,
      not_true_eq_false, not_false_eq_true, if_pos, if_neg] at h <;>
    repeat' split at h
  all_goals (try (exact Option.noConfusion h))
  all_goals
    (first
      | (injection h with h; subst h;
         refine ⟨?_, ?_⟩ <;> rintro x rfl <;> simp_all)
      | (have ht := finishCreateSession_trace _ _ _ _ _ h;
         rw [ht] at hev;
         refine ⟨?_, ?_⟩ <;> rintro x rfl <;> simp_all <;> exact ⟨_, rfl⟩))

/-- An error outcome of the response mapper always carries the zero
output. -/
lemma mapCreateSessionResponse_error_zero (res : Except Err CreateSessionOutput)
    (t t' : List CallEvent) (out : CredentialProcessOutput) (e : Err)
    (h : mapCreateSessionResponse res t = some ((out, some e), t')) :
    out = CredentialProcessOutput.zero := by
  unfold mapCreateSessionResponse at h
  repeat' split at h
  all_goals (try (exact Option.noConfusion h))
  all_goals (injection h with h)
  all_goals simp_all

/-- An error outcome of the finishing step always carries the zero
output. -/
lemma finishCreateSession_error_zero (env : Env) (opts : CredentialsOpts)
    (certB64 : String) (t t' : List CallEvent) (out : CredentialProcessOutput)
    (e : Err)
    (h : finishCreateSession env opts certB64 t = some ((out, some e), t')) :
    out = CredentialProcessOutput.zero := by
  unfold finishCreateSession at h
  exact mapCreateSessionResponse_error_zero _ _ _ _ _ h

/-! Theorems -/

/-- C1: for a pair of ARN strings that both parse but whose regions
differ, `GenerateCredentials` does return before any collaborator or
network call (the trace is empty), but the error it returns is the `err`
variable left over from the successful profile parse — i.e. nil — so the
run is NOT distinguishable from success by its error value, contradicting
the claimed `RegionMismatch` failure.  Evaluated at a concrete
mismatched-region pair. -/
theorem regionMismatch_returns_nil_error :
    GenerateCredentials envOk
        { optsGood with
          ProfileArnStr := "arn:aws:rolesanywhere:us-west-2:123456789012:profile/p" } =
      some ((CredentialProcessOutput.zero, none), []) := by
  decide

/-- C5: every decoded error response carries the response's HTTP status
and request id; the three codes of the closed mapping dispatch to their
corresponding typed exceptions, and any other code yields the generic
error, which still carries the code and the metadata. -/
theorem exceptionFromCode_dispatch :
    ∀ (code : String) (m : ResponseMetadata),
      (unmarshalTypedError code m).StatusCode = m.StatusCode ∧
      (unmarshalTypedError code m).RequestID = m.RequestID ∧
      unmarshalTypedError "AccessDeniedException" m =
        .typed (.accessDeniedException m none) ∧
      unmarshalTypedError "ResourceNotFoundException" m =
        .typed (.resourceNotFoundException m none) ∧
      unmarshalTypedError "ValidationException" m =
        .typed (.validationException m none) ∧
      (code ≠ "AccessDeniedException" → code ≠ "ResourceNotFoundException" →
        code ≠ "ValidationException" → unmarshalTypedError code m = .generic code m) := by
  intro code m
  refine ⟨?_, ?_, rfl, rfl, rfl, fun h1 h2 h3 => ?_⟩
  · simp only [unmarshalTypedError, exceptionFromCode]
    split_ifs <;> rfl
  · simp only [unmarshalTypedError, exceptionFromCode]
    split_ifs <;> rfl
  · simp only [unmarshalTypedError, exceptionFromCode]
    rw [if_neg h1, if_neg h2, if_neg h3]

/-- Witness for C5 at concrete inputs: an unrecognized code with status
503 yields the generic error preserving status and request id, and
`ValidationException` with status 400 yields the typed exception. -/
theorem exceptionFromCode_dispatch_witness :
    (unmarshalTypedError "Whatever" ⟨503, "rid"⟩).StatusCode = 503 ∧
    (unmarshalTypedError "Whatever" ⟨503, "rid"⟩).RequestID = "rid" ∧
    unmarshalTypedError "Whatever" ⟨503, "rid"⟩ = .generic "Whatever" ⟨503, "rid"⟩ ∧
    unmarshalTypedError "ValidationException" ⟨400, "r2"⟩ =
      .typed (.validationException ⟨400, "r2"⟩ none) :=
  ⟨(exceptionFromCode_dispatch "Whatever" ⟨503, "rid"⟩).1,
   (exceptionFromCode_dispatch "Whatever" ⟨503, "rid"⟩).2.1,
   (exceptionFromCode_dispatch "Whatever" ⟨503, "rid"⟩).2.2.2.2.2
     (by decide) (by decide) (by decide),
   (exceptionFromCode_dispatch "ValidationException" ⟨400, "r2"⟩).2.2.2.2.1⟩

/-- C2: `Validate` returns nil exactly when `DurationSeconds` is absent
or at least 900, `ProfileArn` and `RoleArn` are present, and
`SessionName` is absent or at least two bytes long; in particular a
duration of 899 produces exactly the parameter-range failure and a
duration of 900 passes. -/
theorem createSessionInput_Validate_spec :
    (∀ s : CreateSessionInput,
        s.Validate = none ↔
          ((∀ d, s.DurationSeconds = some d → 900 ≤ d) ∧
           s.ProfileArn ≠ none ∧ s.RoleArn ≠ none ∧
           (∀ n, s.SessionName = some n → 2 ≤ n.utf8ByteSize))) ∧
    CreateSessionInput.Validate
        { Cert := none, DurationSeconds := some 899, InstanceProperties := none,
          ProfileArn := some "p", RoleArn := some "r", SessionName := none,
          TrustAnchorArn := none } =
      some { Context := "CreateSessionInput",
             errs := [.minValue "DurationSeconds" 900] } ∧
    CreateSessionInput.Validate
        { Cert := none, DurationSeconds := some 900, InstanceProperties := none,
          ProfileArn := some "p", RoleArn := some "r", SessionName := none,
          TrustAnchorArn := none } = none := by
  refine ⟨?_, by decide, by decide⟩
  intro s
  rcases s with ⟨cert, dur, ip, pa, ra, sn, ta⟩
  simp only [CreateSessionInput.Validate]
  rcases dur with _ | d <;> rcases pa with _ | p <;> rcases ra with _ | r <;>
    rcases sn with _ | n <;> simp <;> split_ifs <;> simp_all <;> omega

/-- Witness for C2: a fully present, in-range input validates to nil. -/
theorem createSessionInput_Validate_spec_witness :
    CreateSessionInput.Validate
        { Cert := none, DurationSeconds := none, InstanceProperties := none,
          ProfileArn := some "p", RoleArn := some "r", SessionName := none,
          TrustAnchorArn := none } = none :=
  (createSessionInput_Validate_spec.1 _).mpr
    ⟨by simp, by simp, by simp, by simp⟩

/-- C3: whenever the run reaches the network call and `CreateSession`
succeeds with an empty `CredentialSet`, `GenerateCredentials` returns
the `errors.New` failure (the spec's `NoCredentialsReturned`) together
with the zero `CredentialProcessOutput` — no credential object is
fabricated from the empty set. -/
theorem generateCredentials_emptyCredentialSet_error :
    ∀ (env : Env) (opts : CredentialsOpts) (ta pa : ARN) (pk : PrivateKey)
      (cd : CertificateData) (der : List Nat) (cert : X509Cert)
      (output : CreateSessionOutput),
      arnParse opts.TrustAnchorArnStr = .ok ta →
      arnParse opts.ProfileArnStr = .ok pa →
      ta.Region = pa.Region →
      env.ReadPrivateKeyData opts.PrivateKeyId = .ok pk →
      env.ReadCertificateData opts.CertificateId = .ok cd →
      env.base64DecodeString cd.CertificateData = .ok der →
      env.parseCertificate der = .ok cert →
      (opts.CertificateBundleId = "" ∨
        ∃ chain, env.ReadCertificateBundleData opts.CertificateBundleId = .ok chain) →
      env.CreateSession (buildCreateSessionRequest opts cd.CertificateData) = .ok output →
      output.CredentialSet = [] →
      ∃ t, GenerateCredentials env opts =
        some ((CredentialProcessOutput.zero,
          some (.newError
            "unable to obtain temporary security credentials from CreateSession")), t) := by
  intro env opts ta pa pk cd der cert output h1 h2 h3 h4 h5 h6 h7 hb h9 h10
  obtain ⟨t, ht⟩ := generateCredentials_spine env opts ta pa pk cd der cert
    h1 h2 h3 h4 h5 h6 h7 hb
  refine ⟨t, ?_⟩
  rw [ht, h9]
  simp [mapCreateSessionResponse, h10]

/-- Witness for C3: under `envEmpty` (success with empty credential
set) the run produces the zero output with the failure message. -/
theorem generateCredentials_emptyCredentialSet_error_witness :
    ∃ t, GenerateCredentials envEmpty optsGood =
      some ((CredentialProcessOutput.zero,
        some (.newError
          "unable to obtain temporary security credentials from CreateSession")), t) :=
  generateCredentials_emptyCredentialSet_error envEmpty optsGood
    ⟨"aws", "rolesanywhere", "us-east-1", "123456789012", "trust-anchor/t"⟩
    ⟨"aws", "rolesanywhere", "us-east-1", "123456789012", "profile/p"⟩
    ⟨1⟩ ⟨"CERTB64"⟩ [1, 2] ⟨[1, 2]⟩
    { CredentialSet := [], EnrollmentArn := none, SubjectArn := none }
    rfl rfl rfl rfl rfl rfl rfl (Or.inl rfl) rfl rfl

/-- C4: whenever the run reaches the network call and `CreateSession`
succeeds with a non-empty `CredentialSet` whose first entry's
credential fields are all present, `GenerateCredentials` returns the
version-1 `CredentialProcessOutput` holding exactly those four fields
and a nil error; all other response fields (assumed-role user, role
ARN, source identity, packed policy size, enrollment and subject ARNs,
later entries) are universally quantified here and do not influence the
result. -/
theorem generateCredentials_success_projection :
    ∀ (env : Env) (opts : CredentialsOpts) (ta pa : ARN) (pk : PrivateKey)
      (cd : CertificateData) (der : List Nat) (cert : X509Cert)
      (output : CreateSessionOutput) (entry : CredentialResponse)
      (rest : List (Option CredentialResponse)) (creds : Credentials)
      (a sk st ex : String),
      arnParse opts.TrustAnchorArnStr = .ok ta →
      arnParse opts.ProfileArnStr = .ok pa →
      ta.Region = pa.Region →
      env.ReadPrivateKeyData opts.PrivateKeyId = .ok pk →
      env.ReadCertificateData opts.CertificateId = .ok cd →
      env.base64DecodeString cd.CertificateData = .ok der →
      env.parseCertificate der = .ok cert →
      (opts.CertificateBundleId = "" ∨
        ∃ chain, env.ReadCertificateBundleData opts.CertificateBundleId = .ok chain) →
      env.CreateSession (buildCreateSessionRequest opts cd.CertificateData) = .ok output →
      output.CredentialSet = some entry :: rest →
      entry.Credentials = some creds →
      creds.AccessKeyId = some a →
      creds.SecretAccessKey = some sk →
      creds.SessionToken = some st →
      creds.Expiration = some ex →
      ∃ t, GenerateCredentials env opts =
        some (({ Version := 1, AccessKeyId := a, SecretAccessKey := sk,
                 SessionToken := st, Expiration := ex }, none), t) := by
  intro env opts ta pa pk cd der cert output entry rest creds a sk st ex
    h1 h2 h3 h4 h5 h6 h7 hb h9 h10 h11 h12 h13 h14 h15
  obtain ⟨t, ht⟩ := generateCredentials_spine env opts ta pa pk cd der cert
    h1 h2 h3 h4 h5 h6 h7 hb
  refine ⟨t, ?_⟩
  rw [ht, h9]
  simp [mapCreateSessionResponse, h10, h11, h12, h13, h14, h15]

/-- Witness for C4: the specification's example credential values are
projected verbatim into the version-1 output. -/
theorem generateCredentials_success_projection_witness :
    ∃ t, GenerateCredentials envOk optsGood =
      some (({ Version := 1, AccessKeyId := "AKIDEXAMPLE", SecretAccessKey := "secret",
               SessionToken := "tok", Expiration := "2024-01-01T00:00:00Z" }, none), t) :=
  generateCredentials_success_projection envOk optsGood
    ⟨"aws", "rolesanywhere", "us-east-1", "123456789012", "trust-anchor/t"⟩
    ⟨"aws", "rolesanywhere", "us-east-1", "123456789012", "profile/p"⟩
    ⟨1⟩ ⟨"CERTB64"⟩ [1, 2] ⟨[1, 2]⟩
    { CredentialSet := [some
        { AssumedRoleUser := none
          Credentials := some
            { AccessKeyId := some "AKIDEXAMPLE"
              Expiration := some "2024-01-01T00:00:00Z"
              SecretAccessKey := some "secret"
              SessionToken := some "tok" }
          PackedPolicySize := none
          RoleArn := none
          SourceIdentity := none }]
      EnrollmentArn := none
      SubjectArn := none }
    { AssumedRoleUser := none
      Credentials := some
        { AccessKeyId := some "AKIDEXAMPLE"
          Expiration := some "2024-01-01T00:00:00Z"
          SecretAccessKey := some "secret"
          SessionToken := some "tok" }
      PackedPolicySize := none
      RoleArn := none
      SourceIdentity := none }
    []
    { AccessKeyId := some "AKIDEXAMPLE"
      Expiration := some "2024-01-01T00:00:00Z"
      SecretAccessKey := some "secret"
      SessionToken := some "tok" }
    "AKIDEXAMPLE" "secret" "tok" "2024-01-01T00:00:00Z"
    rfl rfl rfl rfl rfl rfl rfl (Or.inl rfl) rfl rfl rfl rfl rfl rfl rfl

/-- C6: when either ARN string fails to parse, `GenerateCredentials`
returns the zero output with that malformed-ARN parse error, and the
collaborator/network trace is empty — no identity-loading or network
call is made. -/
theorem generateCredentials_malformedArn_local_failure :
    ∀ (env : Env) (opts : CredentialsOpts) (e : Err),
      (arnParse opts.TrustAnchorArnStr = .error e ∨
        ((∃ ta, arnParse opts.TrustAnchorArnStr = .ok ta) ∧
          arnParse opts.ProfileArnStr = .error e)) →
      GenerateCredentials env opts = some ((CredentialProcessOutput.zero, some e), []) ∧
      (e = .arnInvalidStart ∨ e = .arnInvalidSections) := by
  intro env opts e h
  rcases h with h | ⟨⟨ta, hta⟩, hpe⟩
  · exact ⟨by simp [GenerateCredentials, h], arnParse_error_cases _ _ h⟩
  · exact ⟨by simp [GenerateCredentials, hta, hpe], arnParse_error_cases _ _ hpe⟩

/-- Witness for C6: an unparsable trust-anchor string yields the
malformed-ARN error with an empty trace. -/
theorem generateCredentials_malformedArn_local_failure_witness :
    GenerateCredentials envOk { optsGood with TrustAnchorArnStr := "bogus" } =
      some ((CredentialProcessOutput.zero, some Err.arnInvalidStart), []) ∧
    (Err.arnInvalidStart = Err.arnInvalidStart ∨
      Err.arnInvalidStart = Err.arnInvalidSections) :=
  generateCredentials_malformedArn_local_failure envOk
    { optsGood with TrustAnchorArnStr := "bogus" } .arnInvalidStart (Or.inl rfl)

/-- C7: when both ARNs parse with equal regions, any client constructed
during the run is configured with the trust-anchor ARN's region if the
caller supplied no region, and with the caller's region unchanged
otherwise. -/
theorem generateCredentials_region_from_trustAnchor :
    ∀ (env : Env) (opts : CredentialsOpts) (ta pa : ARN) (res : GenResult) (r : String),
      arnParse opts.TrustAnchorArnStr = .ok ta →
      arnParse opts.ProfileArnStr = .ok pa →
      ta.Region = pa.Region →
      GenerateCredentials env opts = some res →
      CallEvent.newClient r ∈ res.2 →
      (opts.Region = "" → r = ta.Region) ∧ (opts.Region ≠ "" → r = opts.Region) := by
  intro env opts ta pa res r h1 h2 h3 hrun hmem
  obtain ⟨ta', hta', hr⟩ := (trace_shape env opts res hrun _ hmem).1 r rfl
  rw [h1] at hta'
  injection hta' with hta'
  subst hta'
  constructor
  · intro hreg; simpa [hreg] using hr
  · intro hreg; simpa [hreg] using hr

/-- Witness for C7: with no caller-supplied region the client is
configured with the trust anchor's region. -/
theorem generateCredentials_region_from_trustAnchor_witness :
    (optsGood.Region = "" → ("us-east-1" : String) = "us-east-1") ∧
    (optsGood.Region ≠ "" → "us-east-1" = optsGood.Region) :=
  generateCredentials_region_from_trustAnchor envOk optsGood
    ⟨"aws", "rolesanywhere", "us-east-1", "123456789012", "trust-anchor/t"⟩
    ⟨"aws", "rolesanywhere", "us-east-1", "123456789012", "profile/p"⟩
    resGood "us-east-1" rfl rfl rfl (by decide) (by decide)

/-- C8: whenever `GenerateCredentials` returns a non-nil error, the
accompanying `CredentialProcessOutput` is the Go zero value — no partial
credential object is ever produced alongside an error. -/
theorem generateCredentials_error_returns_zero_output :
    ∀ (env : Env) (opts : CredentialsOpts) (out : CredentialProcessOutput)
      (e : Err) (t : List CallEvent),
      GenerateCredentials env opts = some ((out, some e), t) →
      out = CredentialProcessOutput.zero := by
  intro env opts out e t h
  simp only [GenerateCredentials] at h
  repeat' split at h
  all_goals
    (first
      | (injection h with h; simp_all)
      | (exact finishCreateSession_error_zero _ _ _ _ _ _ _ h))

/-- Witness for C8: a malformed trust anchor produces an error whose
accompanying output is the zero value. -/
theorem generateCredentials_error_returns_zero_output_witness :
    GenerateCredentials envOk { optsGood with TrustAnchorArnStr := "junk" } =
      some ((CredentialProcessOutput.zero, some Err.arnInvalidStart), []) ∧
    CredentialProcessOutput.zero = CredentialProcessOutput.zero :=
  ⟨by decide,
   generateCredentials_error_returns_zero_output envOk
     { optsGood with TrustAnchorArnStr := "junk" }
     CredentialProcessOutput.zero Err.arnInvalidStart [] (by decide)⟩

/-- C9: every `CreateSession` request sent by a run carries
`DurationSeconds = 3600`, and the result of `GenerateCredentials` is
invariant under arbitrary changes to `opts.SessionDuration` — the field
is never read. -/
theorem generateCredentials_duration_fixed_3600 :
    (∀ (env : Env) (opts : CredentialsOpts) (res : GenResult) (inp : CreateSessionInput),
      GenerateCredentials env opts = some res →
      CallEvent.createSession inp ∈ res.2 →
      inp.DurationSeconds = some 3600) ∧
    (∀ (env : Env) (opts : CredentialsOpts) (d : Int),
      GenerateCredentials env { opts with SessionDuration := d } =
        GenerateCredentials env opts) := by
  constructor
  · intro env opts res inp hrun hmem
    obtain ⟨c, hc⟩ := (trace_shape env opts res hrun _ hmem).2 inp rfl
    subst hc
    rfl
  · intro env opts d
    obtain ⟨pk, cid, cb, ra, pa, ta, sd, rg, ep, nv, wp, db, v⟩ := opts
    simp only [GenerateCredentials]
    cases harn1 : arnParse ta with
    | error e => rfl
    | ok A =>
      cases harn2 : arnParse pa with
      | error e => rfl
      | ok B =>
        by_cases hR : A.Region ≠ B.Region
        · simp only [if_pos hR]
        · simp only [if_neg hR]
          by_cases hrg : rg = ""
          all_goals simp only [if_pos, if_neg, hrg, ite_true, ite_false]
          all_goals try dsimp only
          all_goals cases hk : env.ReadPrivateKeyData pk
          all_goals try rfl
          all_goals cases hc : env.ReadCertificateData cid
          all_goals try rfl
          all_goals rename_i cd
          all_goals cases hd : env.base64DecodeString cd.CertificateData
          all_goals try rfl
          all_goals rename_i der
          all_goals cases hx : env.parseCertificate der
          all_goals try rfl
          all_goals by_cases hcb : cb ≠ ""
          all_goals simp only [if_pos, if_neg, hcb, ite_true, ite_false]
          all_goals try (cases hbl : env.ReadCertificateBundleData cb)
          all_goals try rfl
          all_goals exact finishCreateSession_congr env _ _ _ _ rfl rfl rfl rfl

/-- Witness for C9: the concrete request sent for `optsGood` carries
duration 3600, and changing `SessionDuration` to 42 leaves the whole
run unchanged. -/
theorem generateCredentials_duration_fixed_3600_witness :
    reqGood.DurationSeconds = some 3600 ∧
    GenerateCredentials envOk { optsGood with SessionDuration := 42 } =
      GenerateCredentials envOk optsGood :=
  ⟨generateCredentials_duration_fixed_3600.1 envOk optsGood resGood reqGood
     (by decide) (by decide),
   generateCredentials_duration_fixed_3600.2 envOk optsGood 42⟩

/-- C10: every `CreateSession` request sent by a run carries a nil
`SessionName` and nil `InstanceProperties`. -/
theorem generateCredentials_no_sessionName_or_instanceProperties :
    ∀ (env : Env) (opts : CredentialsOpts) (res : GenResult) (inp : CreateSessionInput),
      GenerateCredentials env opts = some res →
      CallEvent.createSession inp ∈ res.2 →
      inp.SessionName = none ∧ inp.InstanceProperties = none := by
  intro env opts res inp hrun hmem
  obtain ⟨c, hc⟩ := (trace_shape env opts res hrun _ hmem).2 inp rfl
  subst hc
  exact ⟨rfl, rfl⟩

/-- Witness for C10: the concrete request sent for `optsGood` has no
session name and no instance properties. -/
theorem generateCredentials_no_sessionName_or_instanceProperties_witness :
    reqGood.SessionName = none ∧ reqGood.InstanceProperties = none :=
  generateCredentials_no_sessionName_or_instanceProperties envOk optsGood resGood reqGood
    (by decide) (by decide)

end AwsSigningHelper
